import Mathlib

/-!
Verification of the Kinova kortex example programs
(`api_python/examples/tools/drawing.py` and
`api_python/examples/106-Gripper_command/02-gripper_grabPen.py`).

Python floats are IEEE-754 binary64 values; every such value is a dyadic
rational (an integer mantissa times a power of two), and every float
computation of the two programs stays inside the binary64 normal range.
The numeric domain of the model is therefore `Dyadic`, with a
correct-rounding function (round to nearest, ties to even, 53-bit
significand) applied after each exact rational operation, which is
exactly the IEEE semantics of the corresponding Python expression.
All operations are written with plain integer recursion so that concrete
runs reduce inside the kernel.
-/

set_option maxRecDepth 100000

/-- A dyadic rational `m * 2 ^ e`.  The canonical form produced by all
operations below has an odd mantissa (or `0` with exponent `0`), so two
canonical values are equal exactly when their representations are. -/
structure Dyadic where
  m : ℤ
  e : ℤ
deriving DecidableEq

instance : Inhabited Dyadic := ⟨⟨0, 0⟩⟩

/-- 2 to a natural power, as an integer, by plain structural recursion. -/
def pow2 : ℕ → ℤ
  | 0 => 1
  | k+1 => 2 * pow2 k

/-- Canonicalize a mantissa/exponent pair by stripping factors of two
from the mantissa (fuel-driven; far more fuel than any mantissa width
reached here). -/
def dnormAux : ℕ → ℤ → ℤ → Dyadic
  | 0, m, e => ⟨m, e⟩
  | fuel+1, m, e =>
    if m = 0 then ⟨0, 0⟩
    else if m % 2 = 0 then dnormAux fuel (m / 2) (e + 1)
    else ⟨m, e⟩

/-- Canonical dyadic with value `m * 2 ^ e`. -/
def Dyadic.norm (m e : ℤ) : Dyadic := dnormAux 4800 m e

/-- Mantissa of `a` rescaled to the (not larger) exponent `e`. -/
def Dyadic.scaled (a : Dyadic) (e : ℤ) : ℤ := a.m * pow2 (a.e - e).toNat

/-- The smaller of the two exponents. -/
def Dyadic.minExp (a b : Dyadic) : ℤ := if a.e ≤ b.e then a.e else b.e

/-- Exact difference of two dyadic rationals. -/
def Dyadic.subExact (a b : Dyadic) : Dyadic :=
  let e := a.minExp b
  Dyadic.norm (a.scaled e - b.scaled e) e

/-- Exact sum of two dyadic rationals. -/
def Dyadic.addExact (a b : Dyadic) : Dyadic :=
  let e := a.minExp b
  Dyadic.norm (a.scaled e + b.scaled e) e

/-- Strict value comparison, by comparing mantissas at a common
exponent. -/
def Dyadic.blt (a b : Dyadic) : Bool :=
  let e := a.minExp b
  decide (a.scaled e < b.scaled e)

instance : LT Dyadic := ⟨fun a b => a.blt b = true⟩

instance (a b : Dyadic) : Decidable (a < b) :=
  inferInstanceAs (Decidable (a.blt b = true))

/-- The dyadic zero. -/
def dzero : Dyadic := ⟨0, 0⟩

/-- Floor of the base-2 logarithm of `n / d` for `n ≥ d > 0`: count how
often `d` can be doubled while staying at most `n`. -/
def qlogDown : ℕ → ℤ → ℤ → ℤ
  | 0, _, _ => 0
  | fuel+1, n, d => if n < 2 * d then 0 else qlogDown fuel n (2 * d) + 1

/-- Floor of the base-2 logarithm of `n / d` for `0 < n < d`: count how
often `n` must be doubled to reach at least `d`. -/
def qlogUp : ℕ → ℤ → ℤ → ℤ
  | 0, _, _ => 0
  | fuel+1, n, d => if d ≤ 2 * n then -1 else qlogUp fuel (2 * n) d - 1

/-- Round the positive rational `n / d` (with `n, d > 0`) to the nearest
binary64 value, ties to even.  Valid on the binary64 normal range, which
contains every value reached by the verified computations. -/
def flPos (n d : ℤ) : Dyadic :=
  let L : ℤ := if d ≤ n then qlogDown 1200 n d else qlogUp 1200 n d
  let t : ℤ := L - 52
  let N : ℤ := if t ≤ 0 then n * pow2 (-t).toNat else n
  let D : ℤ := if t ≤ 0 then d else d * pow2 t.toNat
  let q : ℤ := N / D
  let r : ℤ := N % D
  let m : ℤ :=
    if 2 * r < D then q
    else if D < 2 * r then q + 1
    else if q % 2 = 0 then q else q + 1
  Dyadic.norm m t

/-- Round the rational `n / d` (with `d > 0`) to the nearest binary64
value, ties to even.  `flQ n d` is the binary64 value denoted by a
Python decimal literal with exact value `n / d`. -/
def flQ (n d : ℤ) : Dyadic :=
  if n = 0 then dzero
  else if n < 0 then ⟨-(flPos (-n) d).m, (flPos (-n) d).e⟩
  else flPos n d

/-- Correct binary64 rounding of an exact dyadic rational. -/
def Dyadic.round (a : Dyadic) : Dyadic :=
  if 0 ≤ a.e then flQ (a.m * pow2 a.e.toNat) 1
  else flQ a.m (pow2 (-a.e).toNat)

/-- Python float subtraction: exact difference, then one rounding. -/
def fsub (a b : Dyadic) : Dyadic := (a.subExact b).round

/-- Python float addition: exact sum, then one rounding. -/
def fadd (a b : Dyadic) : Dyadic := (a.addExact b).round

/-- The binary64 value denoted by the Python literal `0.2`. -/
def lit02 : Dyadic := flQ 2 10

/-- The binary64 value denoted by the Python literal `0.86`. -/
def lit086 : Dyadic := flQ 86 100

/-!
Gripper open-loop position ramp, from `ExampleSendGripperCommands`
(02-gripper_grabPen.py, lines 40-47):

    position = 1.00
    while position > 0.0:
        finger.value = position
        self.base.SendGripperCommand(gripper_command)
        position -= 0.2
        time.sleep(1)

The fuel argument only bounds the recursion; the verified runs stop
through the loop guard well before the fuel is exhausted.
The returned list holds the successive commanded finger positions.
-/
def gripperPositionRampAux : ℕ → Dyadic → List Dyadic
  | 0, _ => []
  | fuel+1, position =>
    if dzero < position then
      position :: gripperPositionRampAux fuel (fsub position lit02)
    else []

/-- The sequence of position commands sent by the open-loop ramp. -/
def gripperPositionRamp : List Dyadic := gripperPositionRampAux 64 (flQ 1 1)

/-!
Gripper closed-loop confirmation, from `ExampleSendGripperCommands`
(02-gripper_grabPen.py, lines 58-65):

    while True:
        gripper_measure = self.base.GetMeasuredGripperMovement(gripper_request)
        if len (gripper_measure.finger):
            if gripper_measure.finger[0].value > 0.86:
                break
        else: # Else, no finger present in answer, end loop
            break

A measurement is the list of reported finger values; the device is
modelled as a stream of measurements indexed by poll number.
-/

/-- The loop-exit test of one polling iteration: the loop breaks when the
measurement has no finger, or when the first finger value is strictly
above the literal 0.86. -/
def gripperStopSignal (finger : List Dyadic) : Bool :=
  match finger with
  | [] => true
  | v :: _ => decide (lit086 < v)

/-- The polling loop: poll measurements `k`, `k+1`, ... until the stop
signal; returns the total number of measurement requests issued when the
loop exits within `fuel` iterations, and `none` otherwise.  The source
loop has no bound; the fuel only makes the model total, and the theorems
quantify over it. -/
def gripperPollAux (s : ℕ → List Dyadic) : ℕ → ℕ → Option ℕ
  | 0, _ => none
  | fuel+1, k =>
    if gripperStopSignal (s k) then some (k+1) else gripperPollAux s fuel (k+1)

/-- The closed-loop confirmation run against measurement stream `s`. -/
def gripperPollRun (s : ℕ → List Dyadic) (fuel : ℕ) : Option ℕ := gripperPollAux s fuel 0

/-!
Embedding of `tools/drawing.py`.

The device (`base`, `base_cyclic`) and the notification delivery thread
are modelled as an environment: the stored-action list returned by
`ReadAllActions`, the tool-pose feedback returned by `RefreshFeedback`,
the notifications delivered to the subscribed callback before the
20-second wait times out, and whether the RPCs issuing the action (or
the wait itself) raise.  Each function returns its Python result
(`Except` for a propagating exception) together with the ordered trace
of device calls it performed.
-/

/-- The `Base_pb2.ActionEvent` values relevant to the callback (the
enumeration also has further intermediate members; `otherEvent` stands
for any of them). -/
inductive ActionEvent
  | ACTION_START
  | ACTION_END
  | ACTION_ABORT
  | ACTION_PAUSE
  | ACTION_FEEDBACK
  | otherEvent
deriving DecidableEq

/-- The closure returned by `check_for_end_or_abort` (drawing.py, lines
30-43): it signals the gate exactly when the notification is
`ACTION_END` or `ACTION_ABORT`. -/
def check_for_end_or_abort (notification : ActionEvent) : Bool :=
  notification = ActionEvent.ACTION_END || notification = ActionEvent.ACTION_ABORT

/-- Tool-pose part of the base feedback returned by `RefreshFeedback`. -/
structure BaseFeedback where
  tool_pose_x : Dyadic
  tool_pose_y : Dyadic
  tool_pose_z : Dyadic
  tool_pose_theta_x : Dyadic
  tool_pose_theta_y : Dyadic
  tool_pose_theta_z : Dyadic
deriving DecidableEq

/-- Feedback message: `feedback.base` is the tool-pose block. -/
structure Feedback where
  base : BaseFeedback
deriving DecidableEq

/-- An inline Cartesian target pose (drawing.py builds one in
`example_cartesian_action_movement`). -/
structure CartesianPose where
  x : Dyadic
  y : Dyadic
  z : Dyadic
  theta_x : Dyadic
  theta_y : Dyadic
  theta_z : Dyadic
deriving DecidableEq

/-- The `reach_pose` field of an action. -/
structure ReachPose where
  target_pose : CartesianPose
deriving DecidableEq

/-- A `Base_pb2.Action` as populated by drawing.py (named `RobotAction`
here only to avoid clashing with an unrelated library name). -/
structure RobotAction where
  name : String
  application_data : String
  reach_pose : ReachPose
deriving DecidableEq

/-- One device or notification-layer call, in program order. -/
inductive DeviceCall
  | setServoingMode
  | readAllActions
  | refreshFeedback
  | onNotificationActionTopic
  | executeActionFromReference (handle : ℕ)
  | executeAction (a : RobotAction)
  | unsubscribe
deriving DecidableEq

/-- A propagating Python exception. -/
inductive PyError
  | transportError
  | waitInterrupted
deriving DecidableEq

/-- Environment of one `example_cartesian_action_movement` call. -/
structure ActionEnv where
  feedback : Feedback
  executeRaises : Bool
  waitRaises : Bool
  events : List ActionEvent
deriving DecidableEq

/-- Environment of one `example_move_to_home_position` call:
`action_list` is the (name, handle) list answered by `ReadAllActions`
for the `REACH_JOINT_ANGLES` filter. -/
structure HomeEnv where
  action_list : List (String × ℕ)
  executeRaises : Bool
  waitRaises : Bool
  events : List ActionEvent
deriving DecidableEq

/-- `example_move_to_home_position` (drawing.py, lines 45-79).  The
handle kept by the source loop is the one of the last list entry named
"Home".  Subscription, execution, bounded wait and unsubscription follow
the source line by line; a raise in `ExecuteActionFromReference` or in
the wait propagates, skipping the rest of the body. -/
def example_move_to_home_position (env : HomeEnv) :
    Except PyError Bool × List DeviceCall :=
  let tr0 := [DeviceCall.setServoingMode, DeviceCall.readAllActions]
  let action_handle := ((env.action_list.filter (fun a => a.1 == "Home")).getLast?).map (·.2)
  match action_handle with
  | none => (Except.ok false, tr0)
  | some h =>
    let tr1 := tr0 ++ [DeviceCall.onNotificationActionTopic,
                       DeviceCall.executeActionFromReference h]
    if env.executeRaises then (Except.error PyError.transportError, tr1)
    else if env.waitRaises then (Except.error PyError.waitInterrupted, tr1)
    else
      let finished := env.events.any check_for_end_or_abort
      (Except.ok finished, tr1 ++ [DeviceCall.unsubscribe])

/-- The inline Cartesian action built by `example_cartesian_action_movement`
(drawing.py, lines 90-102): position from the arguments, orientation
copied from the current tool-pose feedback. -/
def mkCartesianAction (pose_x pose_y pose_z : Dyadic) (feedback : Feedback) : RobotAction :=
  { name := "Example Cartesian action movement"
    application_data := ""
    reach_pose :=
      { target_pose :=
          { x := pose_x
            y := pose_y
            z := pose_z
            theta_x := feedback.base.tool_pose_theta_x
            theta_y := feedback.base.tool_pose_theta_y
            theta_z := feedback.base.tool_pose_theta_z } } }

/-- `example_cartesian_action_movement` (drawing.py, lines 82-121):
refresh feedback, build the inline action, subscribe, execute, wait with
the 20-second bound, unsubscribe, return the wait result. A raise in
`ExecuteAction` or in the wait propagates, skipping the rest of the
body. -/
def example_cartesian_action_movement (env : ActionEnv)
    (pose_x pose_y pose_z : Dyadic) : Except PyError Bool × List DeviceCall :=
  let action := mkCartesianAction pose_x pose_y pose_z env.feedback
  let tr1 := [DeviceCall.refreshFeedback, DeviceCall.onNotificationActionTopic,
              DeviceCall.executeAction action]
  if env.executeRaises then (Except.error PyError.transportError, tr1)
  else if env.waitRaises then (Except.error PyError.waitInterrupted, tr1)
  else
    let finished := env.events.any check_for_end_or_abort
    (Except.ok finished, tr1 ++ [DeviceCall.unsubscribe])

/-- Accumulator step of the `success &= step()` pattern: a previous
exception stops everything, otherwise the step runs, its trace is
appended, an exception from it propagates, and its boolean result is
conjoined (with no short-circuit) into `success`. -/
def andStep (acc : Except PyError Bool × List DeviceCall)
    (step : Except PyError Bool × List DeviceCall) :
    Except PyError Bool × List DeviceCall :=
  match acc with
  | (Except.error err, tr) => (Except.error err, tr)
  | (Except.ok success, tr) =>
    match step with
    | (Except.error err, t) => (Except.error err, tr ++ t)
    | (Except.ok b, t) => (Except.ok (success && b), tr ++ t)

/-- A device call performed between the steps (it does not run once an
exception is propagating). -/
def emitCall (acc : Except PyError Bool × List DeviceCall) (c : DeviceCall) :
    Except PyError Bool × List DeviceCall :=
  match acc with
  | (Except.error err, tr) => (Except.error err, tr)
  | (Except.ok success, tr) => (Except.ok success, tr ++ [c])

/-- The `for pose_x, pose_y in points` loop of `main` (drawing.py, lines
159-161): one Cartesian dispatch per vertex, environments taken in
order. -/
def drawLoop (envs : ℕ → ActionEnv) (pose_z : Dyadic) :
    ℕ → List (Dyadic × Dyadic) →
    Except PyError Bool × List DeviceCall → Except PyError Bool × List DeviceCall
  | _, [], acc => acc
  | i, p :: rest, acc =>
    drawLoop envs pose_z (i+1) rest
      (andStep acc (example_cartesian_action_movement (envs i) p.1 p.2 pose_z))

/-- Environment of one `main` run: the home-move environment, the five
Cartesian-dispatch environments in program order, and the feedback
answered by the three `RefreshFeedback` calls made directly by `main`. -/
structure MainEnv where
  homeEnv : HomeEnv
  cartesianEnvs : ℕ → ActionEnv
  fb0 : Feedback
  fb1 : Feedback
  fb2 : Feedback

/-- `main` of drawing.py (lines 123-163), after the excluded
argument-parsing and connection bootstrap: the home move, the initial
Cartesian move to the drawing pose, the four rectangle vertices, and the
derived exit code `0 if success else 1`.  (Named `drawingMain` because
Lean reserves the top-level name `main` for executables.) -/
def drawingMain (env : MainEnv) : Except PyError ℕ × List DeviceCall :=
  let acc : Except PyError Bool × List DeviceCall := (Except.ok true, [])
  let acc := emitCall acc DeviceCall.refreshFeedback
  let acc := andStep acc (example_move_to_home_position env.homeEnv)
  let acc := emitCall acc DeviceCall.refreshFeedback
  let fb1 := env.fb1
  let drawing_default_pose :=
    (fadd fb1.base.tool_pose_x (flQ 2 10),
     fadd fb1.base.tool_pose_y (flQ 1 10),
     fsub fb1.base.tool_pose_z (flQ 37 100))
  let acc := andStep acc (example_cartesian_action_movement (env.cartesianEnvs 0)
    drawing_default_pose.1 drawing_default_pose.2.1 drawing_default_pose.2.2)
  let acc := emitCall acc DeviceCall.refreshFeedback
  let fb2 := env.fb2
  let points : List (Dyadic × Dyadic) :=
    [(fadd fb2.base.tool_pose_x (flQ 5 100), fb2.base.tool_pose_y),
     (fadd fb2.base.tool_pose_x (flQ 5 100), fadd fb2.base.tool_pose_y (flQ 5 100)),
     (fsub fb2.base.tool_pose_x (flQ 5 100), fadd fb2.base.tool_pose_y (flQ 5 100)),
     (fsub fb2.base.tool_pose_x (flQ 5 100), fsub fb2.base.tool_pose_y (flQ 5 100))]
  let pose_z := fb2.base.tool_pose_z
  let acc := drawLoop env.cartesianEnvs pose_z 1 points acc
  match acc with
  | (Except.error err, tr) => (Except.error err, tr)
  | (Except.ok success, tr) => (Except.ok (if success then 0 else 1), tr)

/-- Whether a trace entry dispatches a motion to the device. -/
def isDispatch : DeviceCall → Bool
  | DeviceCall.executeActionFromReference _ => true
  | DeviceCall.executeAction _ => true
  | _ => false

/-- Whether the stored-action list holds an entry named "Home". -/
def homeFoundB (env : HomeEnv) : Bool :=
  ((env.action_list.filter (fun a => a.1 == "Home")).getLast?).isSome

/-- The boolean result of the home move when no exception propagates:
the "Home" action was found and a terminal notification arrived in
time. -/
def homeResultB (env : HomeEnv) : Bool :=
  homeFoundB env && env.events.any check_for_end_or_abort

/-- No RPC or wait of the run raises. -/
def noRaisesB (env : MainEnv) : Bool :=
  !env.homeEnv.executeRaises && !env.homeEnv.waitRaises &&
  ((List.range 5).all fun i =>
    !(env.cartesianEnvs i).executeRaises && !(env.cartesianEnvs i).waitRaises)

/-- Every one of the six scripted steps reported completion: the home
move returned True and all five Cartesian dispatches observed a terminal
event before timeout. -/
def allStepsCompletedB (env : MainEnv) : Bool :=
  homeResultB env.homeEnv &&
  ((List.range 5).all fun i => (env.cartesianEnvs i).events.any check_for_end_or_abort)

/-!
Helper lemmas about the gripper loops.
-/

/-- Unfolding step of the ramp while the guard holds. -/
lemma rampAux_pos (f : ℕ) (p : Dyadic) (h : dzero < p) :
    gripperPositionRampAux (f+1) p = p :: gripperPositionRampAux f (fsub p lit02) := by
  simp [gripperPositionRampAux, h]

/-- The ramp emits nothing once the guard fails, whatever the fuel. -/
lemma rampAux_nonpos (f : ℕ) (p : Dyadic) (h : ¬ dzero < p) :
    gripperPositionRampAux f p = [] := by
  cases f <;> simp [gripperPositionRampAux, h]

/-- If one more unit of fuel does not change the ramp output, the run has
ended through the loop guard, and any further fuel gives the same
output. -/
lemma rampAux_stable :
    ∀ (f : ℕ) (p : Dyadic),
      gripperPositionRampAux f p = gripperPositionRampAux (f+1) p →
      ∀ g : ℕ, gripperPositionRampAux (f + g) p = gripperPositionRampAux f p := by
  intro f
  induction f with
  | zero =>
    intro p h g
    by_cases hp : dzero < p
    · rw [rampAux_pos 0 p hp] at h
      simp [gripperPositionRampAux] at h
    · rw [rampAux_nonpos (0+g) p hp, rampAux_nonpos 0 p hp]
  | succ f ih =>
    intro p h g
    by_cases hp : dzero < p
    · rw [rampAux_pos f p hp, rampAux_pos (f+1) p hp] at h
      have h2 := ih (fsub p lit02) (List.cons_injective.eq_iff.mp h) g
      rw [show f + 1 + g = (f + g) + 1 from by omega,
          rampAux_pos (f+g) p hp, rampAux_pos f p hp, h2]
    · rw [rampAux_nonpos (f+1+g) p hp, rampAux_nonpos (f+1) p hp]

/-- The stop test of the polling loop, spelled out. -/
lemma gripperStopSignal_iff (l : List Dyadic) :
    gripperStopSignal l = true ↔ (l = [] ∨ lit086 < l.headI) := by
  cases l with
  | nil => simp [gripperStopSignal]
  | cons v t => simp [gripperStopSignal, List.headI]

/-- If the polling loop returns within its fuel, the poll count exceeds
the start index, the last polled measurement carries the stop signal,
and no earlier polled measurement does. -/
lemma pollAux_some_spec (s : ℕ → List Dyadic) :
    ∀ (fuel k n : ℕ), gripperPollAux s fuel k = some n →
      k < n ∧ gripperStopSignal (s (n-1)) = true ∧
      ∀ i, k ≤ i → i < n - 1 → gripperStopSignal (s i) = false := by
  intro fuel
  induction fuel with
  | zero => intro k n h; simp [gripperPollAux] at h
  | succ fuel ih =>
    intro k n h
    by_cases hs : gripperStopSignal (s k) = true
    · rw [gripperPollAux, if_pos hs] at h
      obtain rfl : k + 1 = n := Option.some_injective _ h
      refine ⟨by omega, by simpa using hs, ?_⟩
      intro i h1 h2
      omega
    · rw [gripperPollAux, if_neg hs] at h
      obtain ⟨hlt, hsig, hmid⟩ := ih (k+1) n h
      refine ⟨by omega, hsig, ?_⟩
      intro i h1 h2
      rcases Nat.eq_or_lt_of_le h1 with rfl | hgt
      · exact Bool.not_eq_true _ ▸ (by simpa using hs)
      · exact hmid i (by omega) h2

/-- If some measurement within reach of the fuel carries the stop
signal, the polling loop returns. -/
lemma pollAux_term (s : ℕ → List Dyadic) :
    ∀ (fuel k j : ℕ), k ≤ j → j < k + fuel → gripperStopSignal (s j) = true →
      ∃ n, gripperPollAux s fuel k = some n := by
  intro fuel
  induction fuel with
  | zero => intro k j h1 h2; omega
  | succ fuel ih =>
    intro k j h1 h2 hsig
    by_cases hs : gripperStopSignal (s k) = true
    · exact ⟨k+1, by rw [gripperPollAux, if_pos hs]⟩
    · have hne : k ≠ j := by rintro rfl; exact hs hsig
      obtain ⟨n, hn⟩ := ih (k+1) j (by omega) (by omega) hsig
      exact ⟨n, by rw [gripperPollAux, if_neg hs]; exact hn⟩

/-!
Claims C4-C7: the gripper sequencer.
-/

/-- Claim C4, counterexample: the open-loop ramp does not emit exactly
five position commands — binary64 rounding leaves `position` at
`2 ^ (-54)` (about 5.55e-17, printed as 0.00) after five decrements, the
guard `position > 0.0` still holds, and a sixth command is sent. -/
theorem C4_ramp_not_five_cx :
    gripperPositionRamp.length = 6 ∧ ¬ (gripperPositionRamp.length = 5) := by
  decide

/-- Claim C4 (amended): the open-loop ramp emits exactly six position
commands — the binary64 values 1.0, 0.8000000000000000444,
0.6000000000000001, 0.4000000000000001, 0.20000000000000007 and
2 ^ (-54) = 5.551115123125783e-17 (printed as 0.00 by the 2-decimal
format) — every emitted value is strictly positive, so no command with
value 0 or below is ever sent; and the output is independent of the
model fuel beyond the six iterations actually run. -/
theorem C4_ramp_six_commands :
    gripperPositionRamp =
      [⟨1, 0⟩, ⟨3602879701896397, -52⟩, ⟨1351079888211149, -51⟩,
       ⟨7205759403792795, -54⟩, ⟨1801439850948199, -53⟩, ⟨1, -54⟩] ∧
    (∀ x ∈ gripperPositionRamp, dzero < x) ∧
    (∀ g : ℕ, gripperPositionRampAux (6 + g) (flQ 1 1) = gripperPositionRamp) := by
  refine ⟨by decide, by decide, ?_⟩
  have hstab := rampAux_stable 6 (flQ 1 1) (by decide)
  intro g
  exact (hstab g).trans (hstab 58).symm

/-- Claim C5: with every polled measurement non-empty, the closed-loop
confirmation stops exactly at the first measurement whose first finger
value strictly exceeds the 0.86 threshold: `n` polls are issued, the
`n`-th measurement exceeds, and no earlier one does. -/
theorem C5_poll_stops_at_first_exceeding :
    ∀ (s : ℕ → List Dyadic) (fuel n : ℕ),
      (∀ i, s i ≠ []) → gripperPollRun s fuel = some n →
      1 ≤ n ∧ lit086 < (s (n-1)).headI ∧
      ∀ i, i < n - 1 → ¬ lit086 < (s i).headI := by
  intro s fuel n hne h
  obtain ⟨hpos, hsig, hmid⟩ := pollAux_some_spec s fuel 0 n h
  refine ⟨by omega, ?_, ?_⟩
  · rcases (gripperStopSignal_iff _).mp hsig with hnil | hlt
    · exact absurd hnil (hne _)
    · exact hlt
  · intro i hi hcon
    have hc : gripperStopSignal (s i) = true :=
      (gripperStopSignal_iff _).mpr (Or.inr hcon)
    rw [hmid i (by omega) hi] at hc
    exact Bool.false_ne_true hc

/-- The scripted measurement stream 0.5, 0.7, 0.86, 0.90, 0.90, ... of
the testable property for claim C5 (binary64 values of the decimals). -/
def streamC5 : ℕ → List Dyadic
  | 0 => [flQ 5 10]
  | 1 => [flQ 7 10]
  | 2 => [flQ 86 100]
  | _ => [flQ 9 10]

/-- Claim C5, witness: on the scripted stream the loop polls all four
values and stops at 0.90 (the fourth poll), not at 0.86 — the strict
comparison lets the exact threshold value pass. -/
theorem C5_poll_stops_at_first_exceeding_witness :
    1 ≤ 4 ∧ lit086 < (streamC5 (4-1)).headI ∧
    ∀ i, i < 4 - 1 → ¬ lit086 < (streamC5 i).headI :=
  C5_poll_stops_at_first_exceeding streamC5 8 4
    (fun i => by rcases i with _|_|_|i <;> simp [streamC5])
    (by decide)

/-- If the loop runs without the stop signal through the first `i` polls
after start index `k` and the signal holds at poll `k + i`, the loop
returns right there, with any remaining fuel. -/
lemma pollAux_reach (s : ℕ → List Dyadic) :
    ∀ (i k fuel : ℕ),
      (∀ j, k ≤ j → j < k + i → gripperStopSignal (s j) = false) →
      gripperStopSignal (s (k + i)) = true →
      gripperPollAux s (fuel + i + 1) k = some (k + i + 1) := by
  intro i
  induction i with
  | zero =>
    intro k fuel hpre hsig
    have hs : gripperStopSignal (s k) = true := by simpa using hsig
    rw [gripperPollAux, if_pos hs]
  | succ i ih =>
    intro k fuel hpre hsig
    have hk : gripperStopSignal (s k) = false := hpre k (le_refl k) (by omega)
    have hsig2 : gripperStopSignal (s (k + 1 + i)) = true := by
      rw [show k + 1 + i = k + (i + 1) from by omega]
      exact hsig
    have hpre2 : ∀ j, k + 1 ≤ j → j < k + 1 + i → gripperStopSignal (s j) = false := by
      intro j h1 h2
      exact hpre j (by omega) (by omega)
    have hrec := ih (k+1) fuel hpre2 hsig2
    rw [gripperPollAux, if_neg (by simp [hk])]
    rw [show k + (i + 1) + 1 = k + 1 + i + 1 from by omega]
    exact hrec

/-- Claim C6: whenever a poll the loop actually reaches — the very first
one, or any later poll `i` none of whose predecessors carried the stop
signal — returns a measurement with an empty finger list, the closed-loop
confirmation terminates right there, normally: exactly `i + 1`
measurement requests are issued and no further one, whatever fuel
remains. -/
theorem C6_empty_poll_terminates :
    ∀ (s : ℕ → List Dyadic) (i fuel : ℕ),
      (∀ j, j < i → gripperStopSignal (s j) = false) →
      s i = [] →
      gripperPollRun s (fuel + i + 1) = some (i + 1) := by
  intro s i fuel hpre hempty
  have hsig : gripperStopSignal (s (0 + i)) = true := by
    rw [Nat.zero_add, hempty]
    rfl
  have hrun := pollAux_reach s i 0 fuel (fun j h1 h2 => hpre j (by omega)) hsig
  rw [show (0:ℕ) + i + 1 = i + 1 from by omega] at hrun
  exact hrun

/-- Measurement stream for the C6 witness: a first poll that does not
stop the loop, then an empty measurement on the second poll. -/
def streamC6 : ℕ → List Dyadic
  | 0 => [flQ 5 10]
  | _ => []

/-- Claim C6, witness: on `streamC6` the empty measurement arrives on the
second poll (not the first), and the loop stops right there with exactly
two measurement requests. -/
theorem C6_empty_poll_terminates_witness :
    gripperPollRun streamC6 2 = some 2 :=
  C6_empty_poll_terminates streamC6 1 0
    (fun j hj => by
      rcases j with _ | j
      · decide
      · omega)
    rfl

/-- Claim C7: the polling loop has no timeout or iteration bound — it
terminates for exactly those measurement streams that eventually report
either no finger data or a first finger value strictly above 0.86, and
polls forever on every other stream. -/
theorem C7_poll_terminates_iff :
    ∀ s : ℕ → List Dyadic,
      (∃ fuel n, gripperPollRun s fuel = some n) ↔
      (∃ i, s i = [] ∨ lit086 < (s i).headI) := by
  intro s
  constructor
  · rintro ⟨fuel, n, h⟩
    obtain ⟨_, hsig, _⟩ := pollAux_some_spec s fuel 0 n h
    exact ⟨n - 1, (gripperStopSignal_iff _).mp hsig⟩
  · rintro ⟨i, hi⟩
    obtain ⟨n, hn⟩ :=
      pollAux_term s (i+1) 0 i (by omega) (by omega) ((gripperStopSignal_iff _).mpr hi)
    exact ⟨i+1, n, hn⟩

/-!
Helper lemmas about the drawing.py dispatch functions.
-/

/-- Whether a trace entry is an `Unsubscribe` call. -/
def isUnsubscribe : DeviceCall → Bool
  | DeviceCall.unsubscribe => true
  | _ => false

@[simp] lemma isDispatch_setServoingMode : isDispatch DeviceCall.setServoingMode = false := rfl
@[simp] lemma isDispatch_readAllActions : isDispatch DeviceCall.readAllActions = false := rfl
@[simp] lemma isDispatch_refreshFeedback : isDispatch DeviceCall.refreshFeedback = false := rfl
@[simp] lemma isDispatch_onNotificationActionTopic :
    isDispatch DeviceCall.onNotificationActionTopic = false := rfl
@[simp] lemma isDispatch_executeActionFromReference (h : ℕ) :
    isDispatch (DeviceCall.executeActionFromReference h) = true := rfl
@[simp] lemma isDispatch_executeAction (a : RobotAction) :
    isDispatch (DeviceCall.executeAction a) = true := rfl
@[simp] lemma isDispatch_unsubscribe : isDispatch DeviceCall.unsubscribe = false := rfl

@[simp] lemma isUnsubscribe_setServoingMode : isUnsubscribe DeviceCall.setServoingMode = false := rfl
@[simp] lemma isUnsubscribe_readAllActions : isUnsubscribe DeviceCall.readAllActions = false := rfl
@[simp] lemma isUnsubscribe_refreshFeedback : isUnsubscribe DeviceCall.refreshFeedback = false := rfl
@[simp] lemma isUnsubscribe_onNotificationActionTopic :
    isUnsubscribe DeviceCall.onNotificationActionTopic = false := rfl
@[simp] lemma isUnsubscribe_executeActionFromReference (h : ℕ) :
    isUnsubscribe (DeviceCall.executeActionFromReference h) = false := rfl
@[simp] lemma isUnsubscribe_executeAction (a : RobotAction) :
    isUnsubscribe (DeviceCall.executeAction a) = false := rfl
@[simp] lemma isUnsubscribe_unsubscribe : isUnsubscribe DeviceCall.unsubscribe = true := rfl

/-- Evaluation of a Cartesian dispatch whose RPCs do not raise. -/
lemma cart_eval (env : ActionEnv)
    (h1 : env.executeRaises = false) (h2 : env.waitRaises = false)
    (px py pz : Dyadic) :
    example_cartesian_action_movement env px py pz =
      (Except.ok (env.events.any check_for_end_or_abort),
       [DeviceCall.refreshFeedback, DeviceCall.onNotificationActionTopic,
        DeviceCall.executeAction (mkCartesianAction px py pz env.feedback),
        DeviceCall.unsubscribe]) := by
  simp [example_cartesian_action_movement, h1, h2]

/-- Evaluation of the home move when "Home" is stored and no RPC
raises. -/
lemma home_eval (henv : HomeEnv) (hf : homeFoundB henv = true)
    (h1 : henv.executeRaises = false) (h2 : henv.waitRaises = false) :
    ∃ hd : ℕ, example_move_to_home_position henv =
      (Except.ok (henv.events.any check_for_end_or_abort),
       [DeviceCall.setServoingMode, DeviceCall.readAllActions,
        DeviceCall.onNotificationActionTopic,
        DeviceCall.executeActionFromReference hd, DeviceCall.unsubscribe]) := by
  rw [homeFoundB, Option.isSome_iff_exists] at hf
  obtain ⟨p, hp⟩ := hf
  refine ⟨p.2, ?_⟩
  simp [example_move_to_home_position, hp, h1, h2]

/-- Evaluation of the home move when no stored action is named "Home". -/
lemma home_eval_notfound (henv : HomeEnv) (hf : homeFoundB henv = false) :
    example_move_to_home_position henv =
      (Except.ok false, [DeviceCall.setServoingMode, DeviceCall.readAllActions]) := by
  rcases hg : (henv.action_list.filter (fun a => a.1 == "Home")).getLast? with _ | p
  · simp [example_move_to_home_position, hg]
  · rw [homeFoundB, hg] at hf
    simp at hf

/-!
Concrete environments used by counterexamples and witnesses.
-/

/-- All-zero tool-pose feedback. -/
def fbZero : Feedback := ⟨⟨dzero, dzero, dzero, dzero, dzero, dzero⟩⟩

/-- A Cartesian dispatch that observes ACTION_END in time. -/
def cenvEnd : ActionEnv :=
  { feedback := fbZero, executeRaises := false, waitRaises := false,
    events := [ActionEvent.ACTION_START, ActionEvent.ACTION_END] }

/-- A Cartesian dispatch whose ExecuteAction RPC raises. -/
def cenvRaise : ActionEnv :=
  { feedback := fbZero, executeRaises := true, waitRaises := false, events := [] }

/-- A home move that finds "Home" and observes ACTION_ABORT in time. -/
def henvAbort : HomeEnv :=
  { action_list := [("Home", 3)], executeRaises := false, waitRaises := false,
    events := [ActionEvent.ACTION_ABORT] }

/-- A stored-action list with no entry named "Home". -/
def henvNoHome : HomeEnv :=
  { action_list := [("NotHome", 7)], executeRaises := false, waitRaises := false,
    events := [ActionEvent.ACTION_END] }

/-!
Claims C2, C3, C9, C10: the Action Dispatcher.
-/

/-- Claim C2: a dispatch with non-raising RPCs returns the gate verdict:
Completed (True) exactly when some notification delivered before the
timeout is terminal, where terminal means ACTION_END or ACTION_ABORT
(treated identically), and no other event variant signals the gate;
otherwise it returns TimedOut (False). -/
theorem C2_dispatch_result_iff_terminal_event :
    ∀ (env : ActionEnv) (px py pz : Dyadic) (henv : HomeEnv),
      env.executeRaises = false → env.waitRaises = false →
      homeFoundB henv = true →
      henv.executeRaises = false → henv.waitRaises = false →
      ((example_cartesian_action_movement env px py pz).1 =
          Except.ok (env.events.any check_for_end_or_abort) ∧
       (example_move_to_home_position henv).1 =
          Except.ok (henv.events.any check_for_end_or_abort) ∧
       (∀ l : List ActionEvent, l.any check_for_end_or_abort = true ↔
          ∃ ev ∈ l, ev = ActionEvent.ACTION_END ∨ ev = ActionEvent.ACTION_ABORT) ∧
       (∀ ev : ActionEvent, check_for_end_or_abort ev = true ↔
          (ev = ActionEvent.ACTION_END ∨ ev = ActionEvent.ACTION_ABORT))) := by
  intro env px py pz henv h1 h2 h3 h4 h5
  obtain ⟨hd, hhome⟩ := home_eval henv h3 h4 h5
  refine ⟨by rw [cart_eval env h1 h2], by rw [hhome], ?_, ?_⟩
  · intro l
    simp [List.any_eq_true, check_for_end_or_abort]
  · intro ev
    cases ev <;> simp [check_for_end_or_abort]

/-- Claim C2, witness: with terminal events delivered in time, both
dispatch functions return the gate verdict computed from their event
lists. -/
theorem C2_dispatch_result_iff_terminal_event_witness :
    (example_cartesian_action_movement cenvEnd dzero dzero dzero).1 =
      Except.ok (cenvEnd.events.any check_for_end_or_abort) ∧
    (example_move_to_home_position henvAbort).1 =
      Except.ok (henvAbort.events.any check_for_end_or_abort) :=
  ⟨(C2_dispatch_result_iff_terminal_event cenvEnd dzero dzero dzero henvAbort
      rfl rfl (by decide) rfl rfl).1,
   (C2_dispatch_result_iff_terminal_event cenvEnd dzero dzero dzero henvAbort
      rfl rfl (by decide) rfl rfl).2.1⟩

/-- Claim C3, counterexample: a dispatch that successfully subscribed but
whose ExecuteAction RPC raises exits without ever unsubscribing (the
source has no try/finally around the Unsubscribe call), so the handle is
not released exactly once on that exit path. -/
theorem C3_unsubscribe_leak_cx :
    DeviceCall.onNotificationActionTopic ∈
      (example_cartesian_action_movement cenvRaise dzero dzero dzero).2 ∧
    ¬ ((example_cartesian_action_movement cenvRaise dzero dzero dzero).2.countP
        isUnsubscribe = 1) := by
  refine ⟨by decide, by decide⟩

/-- Claim C3 (amended): on the normal and timeout exits the subscription
is unsubscribed exactly once, but on an exit caused by a raising
ExecuteAction / ExecuteActionFromReference RPC or a raising wait the
handle is never unsubscribed (it leaks); the home move also subscribes
nothing when "Home" is absent. -/
theorem C3_unsubscribe_exactly_once_unless_raise :
    ∀ (env : ActionEnv) (px py pz : Dyadic) (henv : HomeEnv),
      ((env.executeRaises = false ∧ env.waitRaises = false) →
        (example_cartesian_action_movement env px py pz).2.countP isUnsubscribe = 1) ∧
      ((env.executeRaises = true ∨ env.waitRaises = true) →
        (example_cartesian_action_movement env px py pz).2.countP isUnsubscribe = 0) ∧
      ((homeFoundB henv = true ∧ henv.executeRaises = false ∧ henv.waitRaises = false) →
        (example_move_to_home_position henv).2.countP isUnsubscribe = 1) ∧
      ((homeFoundB henv = false ∨ henv.executeRaises = true ∨ henv.waitRaises = true) →
        (example_move_to_home_position henv).2.countP isUnsubscribe = 0) := by
  intro env px py pz henv
  refine ⟨?_, ?_, ?_, ?_⟩
  · rintro ⟨h1, h2⟩
    rw [cart_eval env h1 h2]
    simp
  · intro hr
    by_cases he : env.executeRaises = true
    · simp [example_cartesian_action_movement, he]
    · have hw : env.waitRaises = true := by
        rcases hr with h | h
        · exact absurd h he
        · exact h
      simp [example_cartesian_action_movement, he, hw]
  · rintro ⟨hf, h1, h2⟩
    obtain ⟨hd, hhome⟩ := home_eval henv hf h1 h2
    rw [hhome]
    simp
  · intro hr
    by_cases hf : homeFoundB henv = true
    · rw [homeFoundB, Option.isSome_iff_exists] at hf
      obtain ⟨p, hp⟩ := hf
      by_cases he : henv.executeRaises = true
      · simp [example_move_to_home_position, hp, he]
      · have hw : henv.waitRaises = true := by
          rcases hr with h | h | h
          · rw [homeFoundB, hp] at h
            simp at h
          · exact absurd h he
          · exact h
        simp [example_move_to_home_position, hp, he, hw]
    · rw [home_eval_notfound henv (by simpa using hf)]
      simp

/-- Claim C3, witness: a dispatch with non-raising RPCs unsubscribes
exactly once. -/
theorem C3_unsubscribe_exactly_once_unless_raise_witness :
    (example_cartesian_action_movement cenvEnd dzero dzero dzero).2.countP
      isUnsubscribe = 1 :=
  (C3_unsubscribe_exactly_once_unless_raise cenvEnd dzero dzero dzero henvAbort).1
    ⟨rfl, rfl⟩

/-- Claim C9: when the stored-action list has no entry named "Home", the
home move returns False and its whole device trace is the servoing-mode
call and the action-list read — no gate, no subscription, no dispatched
action. -/
theorem C9_no_home_no_dispatch :
    ∀ henv : HomeEnv, (∀ a ∈ henv.action_list, ¬ a.1 = "Home") →
      (example_move_to_home_position henv).1 = Except.ok false ∧
      (example_move_to_home_position henv).2 =
        [DeviceCall.setServoingMode, DeviceCall.readAllActions] := by
  intro henv h
  have hfil : henv.action_list.filter (fun a => a.1 == "Home") = [] := by
    rw [List.filter_eq_nil_iff]
    intro a ha
    simpa using h a ha
  rw [example_move_to_home_position, hfil]
  exact ⟨rfl, rfl⟩

/-- Claim C9, witness: a list whose only entry is named "NotHome". -/
theorem C9_no_home_no_dispatch_witness :
    (example_move_to_home_position henvNoHome).1 = Except.ok false ∧
    (example_move_to_home_position henvNoHome).2 =
      [DeviceCall.setServoingMode, DeviceCall.readAllActions] :=
  C9_no_home_no_dispatch henvNoHome (by decide)

/-- Claim C10: every inline Cartesian action issued by a dispatch takes
its x, y, z position exactly from the function arguments and its three
orientation angles unchanged from the tool-pose feedback read at call
time, so the commanded orientation equals the measured orientation. -/
theorem C10_pose_from_args_and_feedback :
    ∀ (env : ActionEnv) (px py pz : Dyadic) (a : RobotAction),
      DeviceCall.executeAction a ∈ (example_cartesian_action_movement env px py pz).2 →
      (a.reach_pose.target_pose.x = px ∧
       a.reach_pose.target_pose.y = py ∧
       a.reach_pose.target_pose.z = pz ∧
       a.reach_pose.target_pose.theta_x = env.feedback.base.tool_pose_theta_x ∧
       a.reach_pose.target_pose.theta_y = env.feedback.base.tool_pose_theta_y ∧
       a.reach_pose.target_pose.theta_z = env.feedback.base.tool_pose_theta_z) := by
  intro env px py pz a hmem
  have ha : a = mkCartesianAction px py pz env.feedback := by
    by_cases he : env.executeRaises = true
    · simp [example_cartesian_action_movement, he] at hmem
      exact hmem
    · by_cases hw : env.waitRaises = true
      · simp [example_cartesian_action_movement, he, hw] at hmem
        exact hmem
      · simp [example_cartesian_action_movement, he, hw] at hmem
        exact hmem
  subst ha
  exact ⟨rfl, rfl, rfl, rfl, rfl, rfl⟩

/-- Tool-pose feedback with distinct orientation angles. -/
def fbTheta : Feedback := ⟨⟨dzero, dzero, dzero, flQ 1 1, flQ 2 1, flQ 3 1⟩⟩

/-- A Cartesian dispatch reading the `fbTheta` feedback. -/
def cenvTheta : ActionEnv :=
  { feedback := fbTheta, executeRaises := false, waitRaises := false,
    events := [ActionEvent.ACTION_END] }

/-- Claim C10, witness: the action issued for target (4, 5, 6) under the
`fbTheta` feedback carries exactly those coordinates and the fed-back
orientation. -/
theorem C10_pose_from_args_and_feedback_witness :
    (mkCartesianAction (flQ 4 1) (flQ 5 1) (flQ 6 1) fbTheta).reach_pose.target_pose.x = flQ 4 1 ∧
    (mkCartesianAction (flQ 4 1) (flQ 5 1) (flQ 6 1) fbTheta).reach_pose.target_pose.y = flQ 5 1 ∧
    (mkCartesianAction (flQ 4 1) (flQ 5 1) (flQ 6 1) fbTheta).reach_pose.target_pose.z = flQ 6 1 ∧
    (mkCartesianAction (flQ 4 1) (flQ 5 1) (flQ 6 1) fbTheta).reach_pose.target_pose.theta_x =
      cenvTheta.feedback.base.tool_pose_theta_x ∧
    (mkCartesianAction (flQ 4 1) (flQ 5 1) (flQ 6 1) fbTheta).reach_pose.target_pose.theta_y =
      cenvTheta.feedback.base.tool_pose_theta_y ∧
    (mkCartesianAction (flQ 4 1) (flQ 5 1) (flQ 6 1) fbTheta).reach_pose.target_pose.theta_z =
      cenvTheta.feedback.base.tool_pose_theta_z :=
  C10_pose_from_args_and_feedback cenvTheta (flQ 4 1) (flQ 5 1) (flQ 6 1)
    (mkCartesianAction (flQ 4 1) (flQ 5 1) (flQ 6 1) fbTheta) (by decide)

/-!
Claims C1 and C8: the motion-sequence runner (`main` of drawing.py).
-/

/-- Full evaluation of a raisefree `main` run: the exit code is 0 exactly
when every step completed, and the number of dispatched motions is 6
when "Home" is stored (5 otherwise, the home reference dispatch being
skipped) regardless of how many steps timed out. -/
lemma drawingMain_eval (env : MainEnv) (h : noRaisesB env = true) :
    (drawingMain env).1 = Except.ok (if allStepsCompletedB env then 0 else 1) ∧
    (drawingMain env).2.countP isDispatch = (if homeFoundB env.homeEnv then 6 else 5) := by
  rw [noRaisesB] at h
  simp only [Bool.and_eq_true, Bool.not_eq_true', List.all_eq_true, List.mem_range] at h
  obtain ⟨⟨hh1, hh2⟩, hall⟩ := h
  obtain ⟨he0, hw0⟩ := hall 0 (by omega)
  obtain ⟨he1, hw1⟩ := hall 1 (by omega)
  obtain ⟨he2, hw2⟩ := hall 2 (by omega)
  obtain ⟨he3, hw3⟩ := hall 3 (by omega)
  obtain ⟨he4, hw4⟩ := hall 4 (by omega)
  have hrange : List.range 5 = [0, 1, 2, 3, 4] := rfl
  by_cases hf : homeFoundB env.homeEnv = true
  · obtain ⟨hd, hhome⟩ := home_eval env.homeEnv hf hh1 hh2
    simp only [drawingMain, drawLoop, hhome,
      cart_eval (env.cartesianEnvs 0) he0 hw0,
      cart_eval (env.cartesianEnvs 1) he1 hw1,
      cart_eval (env.cartesianEnvs 2) he2 hw2,
      cart_eval (env.cartesianEnvs 3) he3 hw3,
      cart_eval (env.cartesianEnvs 4) he4 hw4,
      andStep, emitCall]
    constructor
    · simp only [allStepsCompletedB, homeResultB, hf, hrange, List.all_cons, List.all_nil,
        Bool.true_and, Bool.and_true]
      cases env.homeEnv.events.any check_for_end_or_abort <;>
        cases (env.cartesianEnvs 0).events.any check_for_end_or_abort <;>
        cases (env.cartesianEnvs 1).events.any check_for_end_or_abort <;>
        cases (env.cartesianEnvs 2).events.any check_for_end_or_abort <;>
        cases (env.cartesianEnvs 3).events.any check_for_end_or_abort <;>
        cases (env.cartesianEnvs 4).events.any check_for_end_or_abort <;> rfl
    · simp [hf, List.countP_append, List.countP_cons]
  · have hf2 : homeFoundB env.homeEnv = false := by simpa using hf
    simp only [drawingMain, drawLoop, home_eval_notfound env.homeEnv hf2,
      cart_eval (env.cartesianEnvs 0) he0 hw0,
      cart_eval (env.cartesianEnvs 1) he1 hw1,
      cart_eval (env.cartesianEnvs 2) he2 hw2,
      cart_eval (env.cartesianEnvs 3) he3 hw3,
      cart_eval (env.cartesianEnvs 4) he4 hw4,
      andStep, emitCall]
    constructor
    · simp [allStepsCompletedB, homeResultB, hf2]
    · simp [hf2, List.countP_append, List.countP_cons]

/-- A home move that finds "Home" but observes only the non-terminal
ACTION_START before the timeout: the wait times out. -/
def henvTimeout : HomeEnv :=
  { action_list := [("Home", 1)], executeRaises := false, waitRaises := false,
    events := [ActionEvent.ACTION_START] }

/-- A home move that finds "Home" and completes. -/
def henvHomeEnd : HomeEnv :=
  { action_list := [("Home", 1)], executeRaises := false, waitRaises := false,
    events := [ActionEvent.ACTION_END] }

/-- A full run whose first step (the home move) times out while all five
Cartesian dispatches complete. -/
def envC1cx : MainEnv :=
  { homeEnv := henvTimeout, cartesianEnvs := fun _ => cenvEnd,
    fb0 := fbZero, fb1 := fbZero, fb2 := fbZero }

/-- A full run in which every step completes. -/
def envAllOk : MainEnv :=
  { homeEnv := henvHomeEnd, cartesianEnvs := fun _ => cenvEnd,
    fb0 := fbZero, fb1 := fbZero, fb2 := fbZero }

/-- Claim C1, counterexample: in the run `envC1cx` the first step (K = 0)
times out, yet the runner performs all 6 dispatch calls, not K+1 = 1 —
`success &= step()` evaluates every step and never short-circuits —
while still returning failure. -/
theorem C1_runner_not_fail_fast_cx :
    (drawingMain envC1cx).1 = Except.ok 1 ∧
    (drawingMain envC1cx).2.countP isDispatch = 6 ∧
    ¬ ((drawingMain envC1cx).2.countP isDispatch = 1) :=
  ⟨rfl, by decide, by decide⟩

/-- Claim C1 (amended): in every raisefree run with "Home" stored, the
runner performs all 6 dispatch calls whatever the step outcomes — it
does not stop after the first TimedOut — and returns failure (exit code
1) exactly when some step did not complete. -/
theorem C1_runner_dispatches_all_steps :
    ∀ env : MainEnv, noRaisesB env = true → homeFoundB env.homeEnv = true →
      (drawingMain env).2.countP isDispatch = 6 ∧
      ((drawingMain env).1 = Except.ok 1 ↔ allStepsCompletedB env = false) := by
  intro env h hf
  obtain ⟨h1, h2⟩ := drawingMain_eval env h
  refine ⟨by rw [h2, if_pos hf], ?_⟩
  rw [h1]
  cases hA : allStepsCompletedB env <;> simp

/-- Claim C1, witness: the amended statement evaluated on the concrete
run whose home step times out. -/
theorem C1_runner_dispatches_all_steps_witness :
    (drawingMain envC1cx).2.countP isDispatch = 6 ∧
    ((drawingMain envC1cx).1 = Except.ok 1 ↔ allStepsCompletedB envC1cx = false) :=
  C1_runner_dispatches_all_steps envC1cx (by decide) (by decide)

/-- Claim C8: in every raisefree run the exit code is 0 exactly when all
six scripted steps reported completion (the home move returned True and
every Cartesian dispatch observed a terminal event in time), and 1
exactly otherwise. -/
theorem C8_exit_code_iff_all_completed :
    ∀ env : MainEnv, noRaisesB env = true →
      (((drawingMain env).1 = Except.ok 0 ↔ allStepsCompletedB env = true) ∧
       ((drawingMain env).1 = Except.ok 1 ↔ allStepsCompletedB env = false)) := by
  intro env h
  rw [(drawingMain_eval env h).1]
  cases hA : allStepsCompletedB env <;> simp

/-- Claim C8, witness: the all-completed run exits with code 0. -/
theorem C8_exit_code_iff_all_completed_witness :
    (drawingMain envAllOk).1 = Except.ok 0 :=
  (C8_exit_code_iff_all_completed envAllOk (by decide)).1.mpr (by decide)
